import Mathlib

/-!
Verification of the PV performance simulation core of the solar design
dashboard.  The pvlib library calls (solar position, plane-of-array
transposition, SAPM cell temperature) are external collaborators: the
embedding starts from their outputs, taking each hour as a record of
plane-of-array irradiance and cell temperature (plus GHI and a calendar
month tag used by the monthly aggregation).  All arithmetic is modelled
over the rationals; the one place where the finiteness of an IEEE result
matters is modelled by a partial division returning Option, with none
standing for a non-finite float produced by dividing by zero.
-/

namespace SolarDash

/-- The four loss fractions of the sidebar, each entered as a percentage
and divided by 100 in the source. -/
structure Losses where
  soiling : ℚ
  dc : ℚ
  ac : ℚ
  avail : ℚ
deriving DecidableEq, Repr

/-- One hourly record after the pvlib stages: calendar month of the
timestamp, global horizontal irradiance, plane-of-array irradiance and
SAPM cell temperature. -/
structure HourRec where
  month : ℕ
  ghi : ℚ
  poa : ℚ
  temp_cell : ℚ
deriving DecidableEq, Repr

/-- Raw DC power of one hour: dc_raw = (poa_global / 1000) * dc_kw * (1 - 0.004 * (temp_cell - 25)). -/
def dc_raw (poa dc_kw temp_cell : ℚ) : ℚ :=
  (poa / 1000) * dc_kw * (1 - (4 / 1000) * (temp_cell - 25))

/-- DC power after soiling and DC wiring losses: dc_net = dc_raw * (1 - soiling) * (1 - dc). -/
def dc_net (raw : ℚ) (L : Losses) : ℚ :=
  raw * (1 - L.soiling) * (1 - L.dc)

/-- Inverter output: (dc_net * inv_eff).clip(upper=ac_limit), an elementwise minimum. -/
def ac_power (net inv_eff ac_limit : ℚ) : ℚ :=
  min (net * inv_eff) ac_limit

/-- Final AC power of one hour: ac_final = ac_power * (1 - ac) * (1 - avail). -/
def ac_final (acp : ℚ) (L : Losses) : ℚ :=
  acp * (1 - L.ac) * (1 - L.avail)

/-- The whole per-hour chain of run_full_sim from the plane-of-array
irradiance and cell temperature to the final AC power. -/
def hour_final (r : HourRec) (dc_kw : ℚ) (L : Losses) (inv_eff ac_limit : ℚ) : ℚ :=
  ac_final (ac_power (dc_net (dc_raw r.poa dc_kw r.temp_cell) L) inv_eff ac_limit) L

/-- First year annual yield in kWh: y1_yield = ac_power.sum() over the hourly series. -/
def y1_yield (w : List HourRec) (dc_kw : ℚ) (L : Losses) (inv_eff ac_limit : ℚ) : ℚ :=
  (w.map (fun r => hour_final r dc_kw L inv_eff ac_limit)).sum

/-- Annual plane-of-array insolation in kWh per square metre:
total_poa = irrad.poa_global.sum() / 1000. -/
def total_poa (w : List HourRec) : ℚ :=
  (w.map (fun r => r.poa)).sum / 1000

/-- A LossConfig is valid when each fraction lies in the interval
from 0 inclusive to 1 exclusive. -/
def ValidLosses (L : Losses) : Prop :=
  0 ≤ L.soiling ∧ L.soiling < 1 ∧ 0 ≤ L.dc ∧ L.dc < 1 ∧
  0 ≤ L.ac ∧ L.ac < 1 ∧ 0 ≤ L.avail ∧ L.avail < 1

/-- Claim C1, counterexample: at an hour with negative plane-of-array
irradiance the raw DC power is negative and the loss chain moves it
toward zero, so the final AC power is strictly greater than the raw DC
power even though every loss fraction is in the valid range and the
inverter efficiency is 1. -/
theorem C1_counterexample :
    ValidLosses ⟨1/2, 0, 0, 0⟩ ∧ (0 : ℚ) < 1 ∧ (1 : ℚ) ≤ 1 ∧
    dc_raw (-1000) 1 25 = -1 ∧
    hour_final ⟨1, 0, -1000, 25⟩ 1 ⟨1/2, 0, 0, 0⟩ 1 800 = -(1/2) ∧
    ¬ hour_final ⟨1, 0, -1000, 25⟩ 1 ⟨1/2, 0, 0, 0⟩ 1 800 ≤ dc_raw (-1000) 1 25 := by
  refine ⟨by norm_num [ValidLosses], by norm_num, by norm_num, ?_, ?_, ?_⟩ <;>
    norm_num [hour_final, dc_raw, dc_net, ac_power, ac_final, min_def]

/-- Claim C1, amended: for every hour whose raw DC power is nonnegative,
every valid LossConfig and every inverter efficiency in the interval
from 0 exclusive to 1 inclusive, the final AC power is at most the raw
DC power; at hours with negative raw DC power the loss chain moves the
value toward zero and the inequality can reverse. -/
theorem C1_ac_final_le_dc_raw (r : HourRec) (dc_kw : ℚ) (L : Losses)
    (inv_eff ac_limit : ℚ) (hL : ValidLosses L)
    (heff0 : 0 < inv_eff) (heff1 : inv_eff ≤ 1)
    (hraw : 0 ≤ dc_raw r.poa dc_kw r.temp_cell) :
    hour_final r dc_kw L inv_eff ac_limit ≤ dc_raw r.poa dc_kw r.temp_cell := by
  obtain ⟨hs0, hs1, hd0, hd1, ha0, ha1, hv0, hv1⟩ := hL
  set raw := dc_raw r.poa dc_kw r.temp_cell with hraw_def
  have hnet0 : 0 ≤ dc_net raw L := by
    unfold dc_net
    have h1 : (0:ℚ) ≤ 1 - L.soiling := by linarith
    have h2 : (0:ℚ) ≤ 1 - L.dc := by linarith
    positivity
  have hnet_le : dc_net raw L ≤ raw := by
    unfold dc_net
    have h1 : raw * (1 - L.soiling) ≤ raw :=
      mul_le_of_le_one_right hraw (by linarith)
    have h0 : 0 ≤ raw * (1 - L.soiling) := mul_nonneg hraw (by linarith)
    have h2 : raw * (1 - L.soiling) * (1 - L.dc) ≤ raw * (1 - L.soiling) :=
      mul_le_of_le_one_right h0 (by linarith)
    linarith
  have hacp_le : ac_power (dc_net raw L) inv_eff ac_limit ≤ raw := by
    calc ac_power (dc_net raw L) inv_eff ac_limit ≤ dc_net raw L * inv_eff :=
          min_le_left _ _
      _ ≤ dc_net raw L := mul_le_of_le_one_right hnet0 heff1
      _ ≤ raw := hnet_le
  unfold hour_final ac_final
  rw [← hraw_def]
  set acp := ac_power (dc_net raw L) inv_eff ac_limit with hacp_def
  rcases le_or_lt acp 0 with hle | hpos
  · have hfac : 0 < (1 - L.ac) * (1 - L.avail) :=
      mul_pos (by linarith) (by linarith)
    have h2 : acp * (1 - L.ac) * (1 - L.avail) ≤ 0 := by nlinarith
    linarith
  · have h1 : acp * (1 - L.ac) ≤ acp :=
      mul_le_of_le_one_right (le_of_lt hpos) (by linarith)
    have h0 : 0 ≤ acp * (1 - L.ac) := mul_nonneg (le_of_lt hpos) (by linarith)
    have h2 : acp * (1 - L.ac) * (1 - L.avail) ≤ acp * (1 - L.ac) :=
      mul_le_of_le_one_right h0 (by linarith)
    linarith

/-- Claim C1, witness for the amended theorem at a concrete hour with
positive irradiance. -/
theorem C1_witness :
    hour_final ⟨1, 0, 1000, 25⟩ 1 ⟨1/2, 0, 0, 0⟩ 1 800 ≤ dc_raw 1000 1 25 := by
  have h :=
    C1_ac_final_le_dc_raw ⟨1, 0, 1000, 25⟩ 1 ⟨1/2, 0, 0, 0⟩ 1 800
      (by norm_num [ValidLosses]) (by norm_num) (by norm_num)
      (by norm_num [dc_raw])
  exact h

/-- Claim C2: the inverter stage is the hard clip
ac_power = min(dc_net * inverter_efficiency, ac_capacity_kw): the output
never exceeds the AC nameplate capacity and equals it exactly whenever
dc_net * inverter_efficiency reaches or exceeds it. -/
theorem C2_inverter_clip (net inv_eff ac_limit : ℚ) :
    ac_power net inv_eff ac_limit = min (net * inv_eff) ac_limit ∧
    ac_power net inv_eff ac_limit ≤ ac_limit ∧
    (ac_limit ≤ net * inv_eff → ac_power net inv_eff ac_limit = ac_limit) := by
  refine ⟨rfl, min_le_right _ _, fun h => min_eq_right h⟩

/-- Claim C2, witness: at a clipping hour the output equals the AC
capacity exactly. -/
theorem C2_witness :
    (800 : ℚ) ≤ 1000 * (98/100) ∧ ac_power 1000 (98/100) 800 = 800 ∧
    ac_power 1000 (98/100) 800 ≤ 800 :=
  ⟨by norm_num, (C2_inverter_clip 1000 (98/100) 800).2.2 (by norm_num),
    (C2_inverter_clip 1000 (98/100) 800).2.1⟩

/-- Division as performed by the float arithmetic of the dashboard:
dividing by zero yields a non-finite float (inf or nan), modelled as
none; every other quotient is finite and exact. -/
def fdiv (a b : ℚ) : Option ℚ :=
  if b = 0 then none else some (a / b)

/-- Annual performance ratio:
pr_val = (y1_yield / (total_poa * total_dc_kw)) * 100 if (total_poa * total_dc_kw) > 0 else 0. -/
def pr_val (y1 tp dck : ℚ) : ℚ :=
  if tp * dck > 0 then y1 / (tp * dck) * 100 else 0

/-- The annual performance ratio as the specification words it: an
explicit undefined value, rather than a number, when the denominator is
not positive.  Written for comparison with pr_val, which is the
definition taken from the source. -/
def pr_val_spec (y1 tp dck : ℚ) : Option ℚ :=
  if tp * dck > 0 then some (y1 / (tp * dck) * 100) else none

/-- Sidebar ratio of DC to AC capacity:
dc_ac_ratio = total_dc_kw / total_ac_kw if total_ac_kw > 0 else 0. -/
def dc_ac_frac (dck ack : ℚ) : ℚ :=
  if ack > 0 then dck / ack else 0

/-- Specific yield y1_yield / total_dc_kw, an unguarded float division
in the source. -/
def specific_yield (y1 dck : ℚ) : Option ℚ :=
  fdiv y1 dck

/-- Claim C4, counterexample: with zero annual plane-of-array insolation
the code reports the performance ratio as the number 0, where the
specification requires an explicit undefined value; likewise the DC to
AC ratio with zero AC capacity is reported as the number 0. -/
theorem C4_counterexample :
    pr_val 5 0 990 = 0 ∧ pr_val_spec 5 0 990 = none ∧ dc_ac_frac 990 0 = 0 := by
  norm_num [pr_val, pr_val_spec, dc_ac_frac]

/-- Claim C4, amended: when a KPI denominator is not positive, the
performance ratio and the DC to AC ratio are reported as the substituted
number 0 (a guarded branch, but a sentinel number rather than an
explicit undefined), while the specific yield is an unguarded division
that yields a non-finite float at zero DC capacity; for positive
denominators each KPI equals its defining quotient. -/
theorem C4_kpi_zero_denominators (y1 tp dck ack : ℚ) :
    (¬ tp * dck > 0 → pr_val y1 tp dck = 0) ∧
    (tp * dck > 0 → pr_val y1 tp dck = y1 / (tp * dck) * 100) ∧
    (¬ ack > 0 → dc_ac_frac dck ack = 0) ∧
    (ack > 0 → dc_ac_frac dck ack = dck / ack) ∧
    (dck = 0 → specific_yield y1 dck = none) := by
  refine ⟨fun h => by simp [pr_val, h], fun h => by simp [pr_val, h],
    fun h => by simp [dc_ac_frac, h], fun h => by simp [dc_ac_frac, h],
    fun h => by simp [specific_yield, fdiv, h]⟩

/-- Claim C4, witness for the amended theorem at zero denominators. -/
theorem C4_witness :
    ¬ (0 : ℚ) * 0 > 0 ∧ ¬ (0 : ℚ) > 0 ∧ (0 : ℚ) = 0 ∧
    pr_val 5 0 0 = 0 ∧ dc_ac_frac 0 0 = 0 ∧ specific_yield 5 0 = none := by
  have h := C4_kpi_zero_denominators 5 0 0 0
  exact ⟨by norm_num, by norm_num, rfl,
    h.1 (by norm_num), h.2.2.1 (by norm_num), h.2.2.2.2 rfl⟩

/-- Relative delta of a comparison KPI as computed for the yield,
specific yield and annual insolation metrics:
delta = (other - current) / current * 100, an unguarded float division. -/
def ratio_delta (cur other : ℚ) : Option ℚ :=
  (fdiv (other - cur) cur).map (fun q => q * 100)

/-- Delta of the performance ratio metric in the comparison panel:
pr_diff = comp_pr_val - pr_val, an absolute difference. -/
def pr_delta (cur other : ℚ) : ℚ :=
  other - cur

/-- Claim C5, counterexample: for the performance ratio KPI the reported
delta is the absolute difference, not the relative percentage the claim
states: with current PR 50 and compared PR 60 the code reports 10 while
(other - current) / current * 100 is 20. -/
theorem C5_counterexample :
    pr_delta 50 60 = 10 ∧ ((60 : ℚ) - 50) / 50 * 100 = 20 ∧ (10 : ℚ) ≠ 20 := by
  norm_num [pr_delta]

/-- Claim C5, amended: the yield, specific yield and annual insolation
deltas equal (other - current) / current * 100, with a positive value
exactly when the compared scenario exceeds the current one and zero
exactly at equality, and the division yields a non-finite float rather
than a number when current is zero; the performance ratio delta,
however, is reported as the absolute difference other - current. -/
theorem C5_delta_behavior (cur other : ℚ) (h : 0 < cur) :
    ratio_delta cur other = some ((other - cur) / cur * 100) ∧
    (0 < (other - cur) / cur * 100 ↔ cur < other) ∧
    ((other - cur) / cur * 100 = 0 ↔ other = cur) ∧
    ratio_delta 0 other = none ∧
    pr_delta cur other = other - cur := by
  have hne : cur ≠ 0 := ne_of_gt h
  have key : (other - cur) / cur * 100 = (other - cur) * 100 / cur := by ring
  refine ⟨by simp [ratio_delta, fdiv, hne], ?_, ?_, by simp [ratio_delta, fdiv], rfl⟩
  · rw [key, lt_div_iff₀ h]
    constructor <;> intro hx <;> nlinarith
  · rw [key, div_eq_zero_iff]
    constructor
    · intro hx
      rcases hx with hx | hx
      · have : other - cur = 0 := by
          rcases mul_eq_zero.mp hx with h0 | h0
          · exact h0
          · norm_num at h0
        linarith
      · exact absurd hx hne
    · intro hx
      left
      rw [hx]
      ring

/-- Claim C5, witness for the amended theorem with current yield 50 and
compared yield 60. -/
theorem C5_witness :
    (0 : ℚ) < 50 ∧
    (ratio_delta 50 60 = some (((60 : ℚ) - 50) / 50 * 100) ∧
      (0 < ((60 : ℚ) - 50) / 50 * 100 ↔ (50 : ℚ) < 60) ∧
      (((60 : ℚ) - 50) / 50 * 100 = 0 ↔ (60 : ℚ) = 50) ∧
      ratio_delta 0 60 = none ∧
      pr_delta 50 60 = 60 - 50) :=
  ⟨by norm_num, C5_delta_behavior 50 60 (by norm_num)⟩

/-- Theoretical annual energy in MWh: theo_mwh = (total_poa * total_dc_kw) / 1000. -/
def theo_mwh (tp dck : ℚ) : ℚ :=
  tp * dck / 1000

/-- Waterfall temperature deduction: loss_temp = theo_mwh * 0.08, a fixed
8 percent of the theoretical energy. -/
def loss_temp (theo : ℚ) : ℚ :=
  theo * (8 / 100)

/-- Waterfall soiling deduction: loss_soil = (theo_mwh - loss_temp) * soiling_loss. -/
def loss_soil (theo s : ℚ) : ℚ :=
  (theo - loss_temp theo) * s

/-- Waterfall DC wiring deduction:
loss_dc = (theo_mwh - loss_temp - loss_soil) * dc_loss. -/
def loss_dc (theo s d : ℚ) : ℚ :=
  (theo - loss_temp theo - loss_soil theo s) * d

/-- Waterfall inverter deduction:
loss_inv = (theo_mwh - loss_temp - loss_soil - loss_dc) * (1 - inv_efficiency). -/
def loss_inv (theo s d eff : ℚ) : ℚ :=
  (theo - loss_temp theo - loss_soil theo s - loss_dc theo s d) * (1 - eff)

/-- Waterfall AC wiring deduction, back-computed from the simulated
yield: loss_ac = (y1_yield / 1000) / (1 - ac_loss) * ac_loss. -/
def loss_ac_w (y1 a : ℚ) : ℚ :=
  (y1 / 1000) / (1 - a) * a

/-- Waterfall availability deduction, back-computed from the simulated
yield: loss_avail = (y1_yield / 1000) / (1 - avail_loss) * avail_loss. -/
def loss_avail_w (y1 v : ℚ) : ℚ :=
  (y1 / 1000) / (1 - v) * v

/-- Theoretical energy minus the six waterfall deductions, the value the
waterfall chart accumulates for its final bar. -/
def net_after_waterfall (tp dck s d eff y1 a v : ℚ) : ℚ :=
  theo_mwh tp dck - loss_temp (theo_mwh tp dck) - loss_soil (theo_mwh tp dck) s
    - loss_dc (theo_mwh tp dck) s d - loss_inv (theo_mwh tp dck) s d eff
    - loss_ac_w y1 a - loss_avail_w y1 v

/-- Claim C3, counterexample: one hour at 1000 W per square metre and
cell temperature 25 with all loss fractions zero and inverter
efficiency 1 yields exactly 1 kWh, yet the theoretical energy minus the
six deductions is 92 percent of the reported net yield because of the
fixed 8 percent temperature deduction; the relative gap is 0.08, far
above the claimed 1e-6 tolerance. -/
theorem C3_counterexample :
    y1_yield [⟨1, 1000, 1000, 25⟩] 1 ⟨0, 0, 0, 0⟩ 1 800 = 1 ∧
    total_poa [⟨1, 1000, 1000, 25⟩] = 1 ∧
    net_after_waterfall 1 1 0 0 1 1 0 0 = 23 / 25000 ∧
    ¬ |net_after_waterfall 1 1 0 0 1 1 0 0 - 1 / 1000|
        ≤ (1 / 1000000) * |(1 : ℚ) / 1000| := by
  refine ⟨?_, ?_, ?_, ?_⟩
  · norm_num [y1_yield, hour_final, dc_raw, dc_net, ac_power, ac_final, min_def]
  · norm_num [total_poa]
  · norm_num [net_after_waterfall, theo_mwh, loss_temp, loss_soil, loss_dc,
      loss_inv, loss_ac_w, loss_avail_w]
  · have hval : net_after_waterfall 1 1 0 0 1 1 0 0 = 23 / 25000 := by
      norm_num [net_after_waterfall, theo_mwh, loss_temp, loss_soil, loss_dc,
        loss_inv, loss_ac_w, loss_avail_w]
    rw [hval, show (23 / 25000 : ℚ) - 1 / 1000 = -(1 / 12500) by norm_num,
      abs_neg, abs_of_pos (by norm_num : (0 : ℚ) < 1 / 12500),
      abs_of_pos (by norm_num : (0 : ℚ) < 1 / 1000)]
    norm_num

/-- Claim C3, amended: the temperature, soiling, DC wiring and inverter
deductions each apply their fraction to the energy remaining after the
prior deductions, so that the theoretical energy minus these four equals
theo * 0.92 * (1 - soiling) * (1 - dc) * inv_efficiency; the AC wiring
and availability deductions are instead back-computed from the reported
net yield as yield * f / (1 - f); hence the theoretical energy minus all
six deductions equals the remaining theoretical chain minus
(yield / 1000) * (ac / (1 - ac) + avail / (1 - avail)), which in general
differs from the reported net yield. -/
theorem C3_waterfall_structure (tp dck s d eff y1 a v : ℚ)
    (ha : a ≠ 1) (hv : v ≠ 1) :
    theo_mwh tp dck - loss_temp (theo_mwh tp dck) - loss_soil (theo_mwh tp dck) s
        - loss_dc (theo_mwh tp dck) s d - loss_inv (theo_mwh tp dck) s d eff
      = theo_mwh tp dck * (92 / 100) * (1 - s) * (1 - d) * eff ∧
    loss_ac_w y1 a = (y1 / 1000) * (a / (1 - a)) ∧
    loss_avail_w y1 v = (y1 / 1000) * (v / (1 - v)) ∧
    net_after_waterfall tp dck s d eff y1 a v
      = theo_mwh tp dck * (92 / 100) * (1 - s) * (1 - d) * eff
        - (y1 / 1000) * (a / (1 - a) + v / (1 - v)) := by
  have h1a : (1 : ℚ) - a ≠ 0 := sub_ne_zero.mpr (Ne.symm ha)
  have h1v : (1 : ℚ) - v ≠ 0 := sub_ne_zero.mpr (Ne.symm hv)
  have hac : loss_ac_w y1 a = (y1 / 1000) * (a / (1 - a)) := by
    unfold loss_ac_w
    field_simp
  have hav : loss_avail_w y1 v = (y1 / 1000) * (v / (1 - v)) := by
    unfold loss_avail_w
    field_simp
  have hchain : theo_mwh tp dck - loss_temp (theo_mwh tp dck)
      - loss_soil (theo_mwh tp dck) s - loss_dc (theo_mwh tp dck) s d
      - loss_inv (theo_mwh tp dck) s d eff
      = theo_mwh tp dck * (92 / 100) * (1 - s) * (1 - d) * eff := by
    unfold loss_inv loss_dc loss_soil loss_temp
    ring
  refine ⟨hchain, hac, hav, ?_⟩
  unfold net_after_waterfall
  rw [hac, hav] at *
  unfold loss_inv loss_dc loss_soil loss_temp
  ring

/-- Claim C3, witness for the amended theorem at concrete loss
fractions. -/
theorem C3_witness :
    ((1 : ℚ) / 50 ≠ 1 ∧ (1 : ℚ) / 100 ≠ 1) ∧
    (theo_mwh 1000 990 - loss_temp (theo_mwh 1000 990)
        - loss_soil (theo_mwh 1000 990) (1/50) - loss_dc (theo_mwh 1000 990) (1/50) (3/100)
        - loss_inv (theo_mwh 1000 990) (1/50) (3/100) (98/100)
      = theo_mwh 1000 990 * (92 / 100) * (1 - 1/50) * (1 - 3/100) * (98/100) ∧
    loss_ac_w 1500000 (1/50) = ((1500000 : ℚ) / 1000) * ((1/50) / (1 - 1/50)) ∧
    loss_avail_w 1500000 (1/100) = ((1500000 : ℚ) / 1000) * ((1/100) / (1 - 1/100)) ∧
    net_after_waterfall 1000 990 (1/50) (3/100) (98/100) 1500000 (1/50) (1/100)
      = theo_mwh 1000 990 * (92 / 100) * (1 - 1/50) * (1 - 3/100) * (98/100)
        - ((1500000 : ℚ) / 1000) * ((1/50) / (1 - 1/50) + (1/100) / (1 - 1/100))) :=
  ⟨⟨by norm_num, by norm_num⟩,
    C3_waterfall_structure 1000 990 (1/50) (3/100) (98/100) 1500000 (1/50) (1/100)
      (by norm_num) (by norm_num)⟩

/-- Summing a mapped range list agrees with the finite sum over the
range. -/
lemma sum_list_range (f : ℕ → ℚ) (n : ℕ) :
    ((List.range n).map f).sum = ∑ y ∈ Finset.range n, f y := by
  induction n with
  | zero => simp
  | succ m ih =>
      rw [List.range_succ, List.map_append, List.sum_append,
        Finset.sum_range_succ, ih]
      simp

/-- Yearly energies of the degradation forecast in MWh:
deg_data = [(y1_yield/1000) * (1 - deg_rate)^y for y in range(years)]. -/
def deg_data (y1 deg : ℚ) (years : ℕ) : List ℚ :=
  (List.range years).map (fun y => (y1 / 1000) * (1 - deg) ^ y)

/-- Cumulative energy over the horizon: cumulative_mwh = sum(deg_data). -/
def cumulative_mwh (y1 deg : ℚ) (years : ℕ) : ℚ :=
  (deg_data y1 deg years).sum

/-- Claim C6: the degradation forecast is a sequence of exactly years
values with entry y equal to the first year yield (in MWh) times
(1 - deg_rate) ^ y, so entry 0 is the undegraded first year yield
exactly, and the cumulative figure is the sum of the sequence, which
equals the closed finite sum over the horizon. -/
theorem C6_degradation (y1 deg : ℚ) (years : ℕ) (hy : 1 ≤ years) :
    (deg_data y1 deg years).length = years ∧
    (∀ y (h : y < years),
      (deg_data y1 deg years).get ⟨y, by simpa [deg_data] using h⟩
        = (y1 / 1000) * (1 - deg) ^ y) ∧
    (deg_data y1 deg years).get ⟨0, by simpa [deg_data] using hy⟩ = y1 / 1000 ∧
    cumulative_mwh y1 deg years
      = ∑ y ∈ Finset.range years, (y1 / 1000) * (1 - deg) ^ y := by
  have hlen : (deg_data y1 deg years).length = years := by
    simp [deg_data]
  have hget : ∀ y (h : y < years),
      (deg_data y1 deg years).get ⟨y, by simpa [deg_data] using h⟩
        = (y1 / 1000) * (1 - deg) ^ y := by
    intro y h
    simp [deg_data]
  refine ⟨hlen, hget, ?_, ?_⟩
  · have h0 := hget 0 hy
    simpa using h0
  · unfold cumulative_mwh deg_data
    exact sum_list_range _ years

/-- Claim C6, witness: with a first year yield of 1000 kWh, degradation
rate 0.005 and a 25 year horizon, entry 0 is exactly 1 MWh and entry 24
is exactly 0.995 to the 24th power. -/
theorem C6_witness :
    1 ≤ 25 ∧
    (deg_data 1000 (1/200) 25).length = 25 ∧
    (deg_data 1000 (1/200) 25).get ⟨24, by norm_num [deg_data]⟩
      = ((1000 : ℚ) / 1000) * (1 - 1/200) ^ 24 ∧
    (deg_data 1000 (1/200) 25).get ⟨0, by norm_num [deg_data]⟩ = 1000 / 1000 ∧
    cumulative_mwh 1000 (1/200) 25
      = ∑ y ∈ Finset.range 25, ((1000 : ℚ) / 1000) * ((1 : ℚ) - 1/200) ^ y := by
  have h := C6_degradation 1000 (1/200) 25 (by norm_num)
  exact ⟨by norm_num, h.1, h.2.1 24 (by norm_num), h.2.2.1, h.2.2.2⟩

/-- The scalar outcome of one simulation run: the per hour AC series and
the aggregate figures computed from it. -/
structure SimResult where
  hourly : List ℚ
  poa_total : ℚ
  y1 : ℚ
deriving DecidableEq, Repr

/-- run_full_sim as seen by its caller.  The try block wraps weather
retrieval and every physical model stage; an exception raised at any of
those steps reaches the except clause, which returns the exception text
in place of a result.  The combined outcome of the fallible steps is the
argument named fetched: an error there models a failure of weather
retrieval or of any pvlib stage, and the remaining arithmetic is the
per hour chain. -/
def run_full_sim (fetched : Except String (List HourRec)) (dck : ℚ)
    (L : Losses) (eff lim : ℚ) : Except String SimResult :=
  match fetched with
  | .error e => .error e
  | .ok w =>
      .ok { hourly := w.map (fun r => hour_final r dck L eff lim),
            poa_total := total_poa w,
            y1 := y1_yield w dck L eff lim }

/-- The dispatch after the two runs: a failed primary run stops the page
(nothing is displayed), a successful primary run is displayed together
with the comparison result exactly when the comparison run succeeded,
and otherwise the comparison is omitted. -/
def render (res : Except String SimResult)
    (comp : Option (Except String SimResult)) :
    Option (SimResult × Option SimResult) :=
  match res with
  | .error _ => none
  | .ok r =>
      some (r, match comp with
        | some (Except.ok c) => some c
        | _ => none)

/-- Claim C7: a failure of weather retrieval or of any physical model
step makes the simulation return the error with its cause and no
result at all, the caller then halts the display, and a failure of the
secondary comparison run leaves the primary result displayed with the
comparison simply omitted. -/
theorem C7_error_propagation (e : String) (dck : ℚ) (L : Losses)
    (eff lim : ℚ) (comp : Option (Except String SimResult)) :
    run_full_sim (Except.error e) dck L eff lim = Except.error e ∧
    (∀ r, run_full_sim (Except.error e) dck L eff lim ≠ Except.ok r) ∧
    render (run_full_sim (Except.error e) dck L eff lim) comp = none ∧
    (∀ r, render (Except.ok r) (some (Except.error e)) = some (r, none)) ∧
    (∀ r, render (Except.ok r) none = some (r, none)) ∧
    (∀ r c, render (Except.ok r) (some (Except.ok c)) = some (r, some c)) := by
  refine ⟨rfl, fun r h => by simp [run_full_sim] at h, rfl,
    fun r => rfl, fun r => rfl, fun r c => rfl⟩

/-- The live sidebar inputs at a given moment. -/
structure LiveInputs where
  location_name : String
  lat : ℚ
  lon : ℚ
  tilt : ℚ
  azimuth : ℚ
  p_mp_stc : ℚ
  n_series : ℕ
  n_parallel : ℕ
  num_inv : ℕ
  inv_rating : ℚ
  inv_efficiency : ℚ
  mount_type : String
  soiling_loss : ℚ
  dc_loss : ℚ
  ac_loss : ℚ
  avail_loss : ℚ
  years : ℕ
  deg_rate : ℚ
deriving DecidableEq, Repr

/-- The dictionary stored under a saved name: every field of the save
block, with the derived capacities computed from the live inputs at the
moment of saving. -/
structure SavedConfig where
  location : String
  lat : ℚ
  lon : ℚ
  tilt : ℚ
  azimuth : ℚ
  p_mp_stc : ℚ
  n_series : ℕ
  n_parallel : ℕ
  total_dc_kw : ℚ
  num_inv : ℕ
  inv_rating : ℚ
  inv_efficiency : ℚ
  total_ac_kw : ℚ
  dc_ac : ℚ
  mount_type : String
  soiling_loss : ℚ
  dc_loss : ℚ
  ac_loss : ℚ
  avail_loss : ℚ
  years : ℕ
  deg_rate : ℚ
deriving DecidableEq, Repr

/-- Building the stored dictionary from the live inputs; all stored
values are scalars copied at save time. -/
def snapshot (i : LiveInputs) : SavedConfig :=
  { location := i.location_name, lat := i.lat, lon := i.lon, tilt := i.tilt,
    azimuth := i.azimuth, p_mp_stc := i.p_mp_stc, n_series := i.n_series,
    n_parallel := i.n_parallel,
    total_dc_kw := (i.n_series : ℚ) * (i.n_parallel : ℚ) * i.p_mp_stc / 1000,
    num_inv := i.num_inv, inv_rating := i.inv_rating,
    inv_efficiency := i.inv_efficiency,
    total_ac_kw := (i.num_inv : ℚ) * i.inv_rating,
    dc_ac := dc_ac_frac ((i.n_series : ℚ) * (i.n_parallel : ℚ) * i.p_mp_stc / 1000)
      ((i.num_inv : ℚ) * i.inv_rating),
    mount_type := i.mount_type, soiling_loss := i.soiling_loss,
    dc_loss := i.dc_loss, ac_loss := i.ac_loss, avail_loss := i.avail_loss,
    years := i.years, deg_rate := i.deg_rate }

/-- The session state: the live inputs, the insertion ordered saved
collection, and the comparison toggle. -/
structure Session where
  live : LiveInputs
  saved : List (String × SavedConfig)
  comparison_mode : Bool
deriving DecidableEq, Repr

/-- Assignment into a Python dict: an existing key keeps its position
and gets the new value, a new key is appended at the end. -/
def upsert (l : List (String × SavedConfig)) (name : String)
    (v : SavedConfig) : List (String × SavedConfig) :=
  match l with
  | [] => [(name, v)]
  | (k, w) :: rest =>
      if k = name then (name, v) :: rest else (k, w) :: upsert rest name v

/-- The save button: st.session_state.scenarios[scenario_name] = dict of
the current inputs. -/
def save_current (s : Session) (name : String) : Session :=
  { s with saved := upsert s.saved name (snapshot s.live) }

/-- Editing the sidebar inputs changes only the live values. -/
def set_inputs (s : Session) (i : LiveInputs) : Session :=
  { s with live := i }

/-- The clear all button: st.session_state.scenarios = and an empty
dict, and the comparison toggle is reset. -/
def clear_all (s : Session) : Session :=
  { s with saved := [], comparison_mode := false }

/-- Reading a saved entry by name. -/
def lookup_saved (s : Session) (name : String) : Option SavedConfig :=
  (s.saved.find? (fun p => p.1 == name)).map Prod.snd

/-- Looking up the key just written by upsert finds the new value. -/
lemma find_upsert_self (l : List (String × SavedConfig)) (name : String)
    (v : SavedConfig) :
    (upsert l name v).find? (fun p => p.1 == name) = some (name, v) := by
  induction l with
  | nil => simp [upsert]
  | cons hd tl ih =>
      obtain ⟨k, w⟩ := hd
      by_cases h : k = name
      · simp [upsert, h]
      · simp [upsert, h, List.find?, ih]

/-- Looking up a different key is unaffected by upsert. -/
lemma find_upsert_other (l : List (String × SavedConfig)) (name m : String)
    (v : SavedConfig) (h : m ≠ name) :
    (upsert l name v).find? (fun p => p.1 == m)
      = l.find? (fun p => p.1 == m) := by
  have hb : (name == m) = false := beq_eq_false_iff_ne.mpr (Ne.symm h)
  induction l with
  | nil => simp [upsert, List.find?, hb]
  | cons hd tl ih =>
      obtain ⟨k, w⟩ := hd
      by_cases hk : k = name
      · subst hk
        simp [upsert, List.find?, hb]
      · by_cases hm : k = m
        · have hkm : (k == m) = true := beq_iff_eq.mpr hm
          simp [upsert, hk, List.find?, hkm]
        · have hkm : (k == m) = false := beq_eq_false_iff_ne.mpr hm
          simp [upsert, hk, List.find?, hkm, ih]

/-- upsert keeps the key order: an existing key stays in place, a new
key goes to the end. -/
lemma keys_upsert (l : List (String × SavedConfig)) (name : String)
    (v : SavedConfig) :
    (upsert l name v).map Prod.fst
      = if name ∈ l.map Prod.fst then l.map Prod.fst
        else l.map Prod.fst ++ [name] := by
  induction l with
  | nil => simp [upsert]
  | cons hd tl ih =>
      obtain ⟨k, w⟩ := hd
      by_cases h : k = name
      · simp [upsert, h]
      · simp only [upsert, if_neg h, List.map_cons, ih, List.mem_cons]
        have hne : ¬ name = k := fun hx => h hx.symm
        by_cases htl : name ∈ tl.map Prod.fst
        · simp [htl, hne]
        · simp [htl, hne]

/-- Claim C8: saving stores a self contained snapshot of the current
configuration under the given name, in insertion order with duplicate
names overwritten in place; later edits of the live inputs change no
stored field, saving under another name and editing inputs remove
nothing, and only the explicit clear all action empties the
collection. -/
theorem C8_snapshot_store (s : Session) (name : String) (i : LiveInputs)
    (m : String) (hm : m ≠ name) :
    lookup_saved (set_inputs (save_current s name) i) name
      = some (snapshot s.live) ∧
    lookup_saved (save_current s name) name = some (snapshot s.live) ∧
    lookup_saved (save_current s name) m = lookup_saved s m ∧
    lookup_saved (set_inputs s i) m = lookup_saved s m ∧
    (clear_all s).saved = [] ∧
    (save_current s name).saved.map Prod.fst
      = (if name ∈ s.saved.map Prod.fst then s.saved.map Prod.fst
         else s.saved.map Prod.fst ++ [name]) := by
  refine ⟨?_, ?_, ?_, rfl, rfl, keys_upsert s.saved name (snapshot s.live)⟩
  · simp [lookup_saved, set_inputs, save_current, find_upsert_self]
  · simp [lookup_saved, save_current, find_upsert_self]
  · simp [lookup_saved, save_current, find_upsert_other s.saved name m _ hm]

/-- A concrete set of live inputs matching the sidebar defaults. -/
def demo_inputs : LiveInputs :=
  { location_name := "Seville, Spain", lat := 1869/50, lon := -(299/50),
    tilt := 37, azimuth := 180, p_mp_stc := 550, n_series := 18,
    n_parallel := 100, num_inv := 4, inv_rating := 200,
    inv_efficiency := 49/50, mount_type := "Open Rack",
    soiling_loss := 1/50, dc_loss := 3/100, ac_loss := 3/200,
    avail_loss := 1/100, years := 25, deg_rate := 1/200 }

/-- A second set of live inputs differing in tilt. -/
def demo_inputs_alt : LiveInputs :=
  { demo_inputs with tilt := 20 }

/-- A session with no saved entries. -/
def demo_session : Session :=
  { live := demo_inputs, saved := [], comparison_mode := false }

/-- Claim C8, witness: saving the defaults under the name A, then
editing the tilt, leaves the stored entry equal to the snapshot of the
defaults, and the other clauses hold at the names A and B. -/
theorem C8_witness :
    "B" ≠ "A" ∧
    lookup_saved (set_inputs (save_current demo_session "A") demo_inputs_alt) "A"
      = some (snapshot demo_session.live) ∧
    lookup_saved (save_current demo_session "A") "A"
      = some (snapshot demo_session.live) ∧
    lookup_saved (save_current demo_session "A") "B"
      = lookup_saved demo_session "B" ∧
    (clear_all demo_session).saved = [] :=
  have h := C8_snapshot_store demo_session "A" demo_inputs_alt "B"
    (by decide)
  ⟨by decide, h.1, h.2.1, h.2.2.1, h.2.2.2.2.1⟩

/-- Monthly GHI sum of the hourly series for calendar month m. -/
def monthly_ghi (w : List HourRec) (m : ℕ) : ℚ :=
  ((w.filter (fun r => r.month == m)).map (fun r => r.ghi)).sum

/-- Monthly plane-of-array sum of the hourly series for calendar
month m. -/
def monthly_poa (w : List HourRec) (m : ℕ) : ℚ :=
  ((w.filter (fun r => r.month == m)).map (fun r => r.poa)).sum

/-- Monthly AC energy sum for calendar month m. -/
def monthly_energy (w : List HourRec) (dck : ℚ) (L : Losses)
    (eff lim : ℚ) (m : ℕ) : ℚ :=
  ((w.filter (fun r => r.month == m)).map
    (fun r => hour_final r dck L eff lim)).sum

/-- Monthly performance ratio row:
PR = (Energy / ((POA / 1000) * total_dc_kw)) * 100, an unguarded float
division. -/
def monthly_pr (w : List HourRec) (dck : ℚ) (L : Losses)
    (eff lim : ℚ) (m : ℕ) : Option ℚ :=
  (fdiv (monthly_energy w dck L eff lim m) ((monthly_poa w m / 1000) * dck)).map
    (fun q => q * 100)

/-- One row of the monthly table df_m. -/
structure MonthRow where
  month : ℕ
  ghi : ℚ
  poa : ℚ
  energy : ℚ
  pr : Option ℚ
deriving Repr

/-- The monthly table: one row per calendar month of the year. -/
def monthly_rows (w : List HourRec) (dck : ℚ) (L : Losses)
    (eff lim : ℚ) : List MonthRow :=
  (List.range 12).map (fun j =>
    { month := j + 1, ghi := monthly_ghi w (j + 1), poa := monthly_poa w (j + 1),
      energy := monthly_energy w dck L eff lim (j + 1),
      pr := monthly_pr w dck L eff lim (j + 1) })

/-- Splitting a filtered sum at the head of the list. -/
lemma month_sum_cons (r : HourRec) (t : List HourRec) (f : HourRec → ℚ)
    (m : ℕ) :
    (((r :: t).filter (fun x => x.month == m)).map f).sum
      = (if r.month = m then f r else 0)
        + ((t.filter (fun x => x.month == m)).map f).sum := by
  by_cases h : r.month = m
  · have hb : (r.month == m) = true := beq_iff_eq.mpr h
    simp [List.filter_cons, hb, h]
  · have hb : (r.month == m) = false := beq_eq_false_iff_ne.mpr h
    simp [List.filter_cons, hb, h]

/-- Summing the per month filtered sums over the twelve calendar months
recovers the total, provided every record carries a month between 1
and 12. -/
lemma sum_over_months (w : List HourRec) (f : HourRec → ℚ)
    (hw : ∀ r ∈ w, 1 ≤ r.month ∧ r.month ≤ 12) :
    ∑ j ∈ Finset.range 12, ((w.filter (fun x => x.month == j + 1)).map f).sum
      = (w.map f).sum := by
  induction w with
  | nil => simp
  | cons r t ih =>
      have hr := hw r (List.mem_cons_self r t)
      have ht : ∀ x ∈ t, 1 ≤ x.month ∧ x.month ≤ 12 :=
        fun x hx => hw x (List.mem_cons_of_mem _ hx)
      have hsplit : ∀ j ∈ Finset.range 12,
          (((r :: t).filter (fun x => x.month == j + 1)).map f).sum
            = (if r.month = j + 1 then f r else 0)
              + ((t.filter (fun x => x.month == j + 1)).map f).sum :=
        fun j _ => month_sum_cons r t f (j + 1)
      rw [Finset.sum_congr rfl hsplit, Finset.sum_add_distrib, ih ht]
      have hone : ∑ j ∈ Finset.range 12, (if r.month = j + 1 then f r else 0)
          = f r := by
        rw [Finset.sum_eq_single (r.month - 1)]
        · have hm : r.month - 1 + 1 = r.month := Nat.succ_pred_eq_of_pos hr.1
          simp [hm]
        · intro b _ hb
          have : r.month ≠ b + 1 := by omega
          simp [this]
        · intro hmem
          exfalso
          apply hmem
          have : r.month - 1 < 12 := by omega
          simpa [Finset.mem_range] using this
      rw [hone]
      simp

/-- Claim C9: the monthly table has exactly 12 rows, one per calendar
month; when every hourly record carries a calendar month between 1 and
12, the monthly energy sums add up exactly to the annual yield (and the
monthly GHI and POA sums likewise add up to the annual totals); and
every monthly PR with a nonzero denominator equals
energy divided by POA over 1000 times capacity, times 100. -/
theorem C9_monthly_aggregation (w : List HourRec) (dck : ℚ) (L : Losses)
    (eff lim : ℚ) (hw : ∀ r ∈ w, 1 ≤ r.month ∧ r.month ≤ 12) :
    (monthly_rows w dck L eff lim).length = 12 ∧
    ((monthly_rows w dck L eff lim).map (fun row => row.energy)).sum
      = y1_yield w dck L eff lim ∧
    ((monthly_rows w dck L eff lim).map (fun row => row.ghi)).sum
      = (w.map (fun r => r.ghi)).sum ∧
    ((monthly_rows w dck L eff lim).map (fun row => row.poa)).sum
      = (w.map (fun r => r.poa)).sum ∧
    (∀ m, (monthly_poa w m / 1000) * dck ≠ 0 →
      monthly_pr w dck L eff lim m
        = some (monthly_energy w dck L eff lim m
            / ((monthly_poa w m / 1000) * dck) * 100)) := by
  refine ⟨by simp [monthly_rows], ?_, ?_, ?_, ?_⟩
  · have hmap : (monthly_rows w dck L eff lim).map (fun row => row.energy)
        = (List.range 12).map (fun j => monthly_energy w dck L eff lim (j + 1)) := by
      simp [monthly_rows, List.map_map, Function.comp_def]
    rw [hmap, sum_list_range (fun j => monthly_energy w dck L eff lim (j + 1)) 12]
    unfold monthly_energy y1_yield
    exact sum_over_months w _ hw
  · have hmap : (monthly_rows w dck L eff lim).map (fun row => row.ghi)
        = (List.range 12).map (fun j => monthly_ghi w (j + 1)) := by
      simp [monthly_rows, List.map_map, Function.comp_def]
    rw [hmap, sum_list_range (fun j => monthly_ghi w (j + 1)) 12]
    unfold monthly_ghi
    exact sum_over_months w _ hw
  · have hmap : (monthly_rows w dck L eff lim).map (fun row => row.poa)
        = (List.range 12).map (fun j => monthly_poa w (j + 1)) := by
      simp [monthly_rows, List.map_map, Function.comp_def]
    rw [hmap, sum_list_range (fun j => monthly_poa w (j + 1)) 12]
    unfold monthly_poa
    exact sum_over_months w _ hw
  · intro m hm
    simp [monthly_pr, fdiv, hm]

/-- A two hour weather sample spanning two calendar months. -/
def demo_hours : List HourRec :=
  [⟨1, 100, 500, 25⟩, ⟨2, 50, 300, 20⟩]

/-- Claim C9, witness at the two hour sample: twelve rows whose energy,
GHI and POA columns sum to the annual totals. -/
theorem C9_witness :
    (∀ r ∈ demo_hours, 1 ≤ r.month ∧ r.month ≤ 12) ∧
    (monthly_rows demo_hours 1 ⟨0, 0, 0, 0⟩ 1 800).length = 12 ∧
    ((monthly_rows demo_hours 1 ⟨0, 0, 0, 0⟩ 1 800).map
      (fun row => row.energy)).sum = y1_yield demo_hours 1 ⟨0, 0, 0, 0⟩ 1 800 ∧
    ((monthly_rows demo_hours 1 ⟨0, 0, 0, 0⟩ 1 800).map
      (fun row => row.ghi)).sum = (demo_hours.map (fun r => r.ghi)).sum ∧
    ((monthly_rows demo_hours 1 ⟨0, 0, 0, 0⟩ 1 800).map
      (fun row => row.poa)).sum = (demo_hours.map (fun r => r.poa)).sum := by
  have hw : ∀ r ∈ demo_hours, 1 ≤ r.month ∧ r.month ≤ 12 := by
    intro r hr
    simp [demo_hours] at hr
    rcases hr with h | h <;> subst h <;> constructor <;> norm_num
  have h := C9_monthly_aggregation demo_hours 1 ⟨0, 0, 0, 0⟩ 1 800 hw
  exact ⟨hw, h.1, h.2.1, h.2.2.1, h.2.2.2.1⟩

/-- Claim C10: the monthly PR divides by (POA over 1000) times capacity
with no guard, so a month whose POA sums to zero produces a non-finite
float, while the annual PR takes its explicit zero denominator branch
and stays the finite number 0. -/
theorem C10_monthly_pr_unguarded (w : List HourRec) (dck : ℚ) (L : Losses)
    (eff lim : ℚ) (m : ℕ) (hpoa : monthly_poa w m = 0) :
    monthly_pr w dck L eff lim m = none ∧
    (∀ y1, pr_val y1 0 dck = 0) := by
  constructor
  · simp [monthly_pr, fdiv, hpoa]
  · intro y1
    simp [pr_val]

/-- Claim C10, witness: an empty series has zero POA in month 1, the
monthly PR is non-finite there, and the annual PR with zero insolation
is the number 0. -/
theorem C10_witness :
    monthly_poa [] 1 = 0 ∧
    monthly_pr [] 1 ⟨0, 0, 0, 0⟩ 1 800 1 = none ∧
    pr_val 5 0 1 = 0 := by
  have h := C10_monthly_pr_unguarded [] 1 ⟨0, 0, 0, 0⟩ 1 800 1 rfl
  exact ⟨rfl, h.1, h.2 5⟩

end SolarDash
